import Mathlib

/-!
Verification development for the autoblogger multi-agent pipeline.

Shallow embedding of the orchestration core of `src/agents/`:
`BaseAgent.retry_with_backoff`, `BaseAgent.is_transient_error`,
`BaseAgent.safe_invoke_claude` (base_agent.py),
`ContentCheckerAgent._calculate_quality_score`, `_make_decision`,
`_check_factual_accuracy`, `_check_research_alignment`
(content_checker_agent.py), `ManagerAgent._execute_workflow` and
`WorkflowState` (manager_agent.py), and
`TopicDiscoveryAgent._select_unique_topic`, `_cleanup_stale_workflows`
(topic_discovery_agent.py).

Python floats/Decimals are modelled as exact rationals (all arithmetic in
scope is exact decimal arithmetic), timestamps as integers (ISO-8601 UTC
strings compare lexicographically iff chronologically), and the DynamoDB
store as explicit record lists.  Randomness (`random.choice`) is modelled
nondeterministically: theorems quantify over every member of the pool the
code draws from.  Sleeps are modelled by counting them; their real-valued
durations and jitter are irrelevant to the claims.
-/

namespace Autoblogger

/-- Python `str.lower()` restricted to the ASCII text this repository uses. -/
def toLowerStr (s : String) : String :=
  String.mk (s.data.map Char.toLower)

/-- `listStartsWith p l` is true iff `p` is an initial segment of `l`. -/
def listStartsWith : List Char → List Char → Bool
  | [], _ => true
  | _ :: _, [] => false
  | a :: as, b :: bs => a == b && listStartsWith as bs

/-- `listHasSub p l` is true iff `p` occurs contiguously inside `l`
(Python `p in l` on strings). -/
def listHasSub (p : List Char) : List Char → Bool
  | [] => listStartsWith p []
  | b :: bs => listStartsWith p (b :: bs) || listHasSub p bs

/-- Python `pat in hay` for strings. -/
def containsPat (hay pat : String) : Bool :=
  listHasSub pat.data hay.data

/-- Python `str.split()`: split on whitespace, dropping empty pieces. -/
def splitWords (s : String) : List String :=
  (s.split Char.isWhitespace).filter (fun w => !w.isEmpty)

/-- A Python exception, reduced to what `is_transient_error` inspects:
`type(error).__name__` and `str(error)`. -/
structure PyError where
  ty : String
  msg : String
deriving DecidableEq

/-- Observable trace of one `retry_with_backoff` run: the value returned or
exception re-raised, how many times the operation was invoked, and how many
`time.sleep` calls happened. -/
structure RetryTrace (α : Type) where
  result : Except PyError α
  calls : Nat
  sleeps : Nat

/-- The `for attempt in range(max_retries + 1)` loop of
`BaseAgent.retry_with_backoff` (base_agent.py lines 381-443).  The operation
is indexed by the attempt number; `remaining = max_retries - attempt`.  On
success the result is returned at once; on failure with `attempt ==
max_retries` the exception is re-raised with no sleep; otherwise the code
sleeps (backoff delay with jitter, not needed by any claim) and retries. -/
def retryAux (op : Nat → Except PyError α) (attempt : Nat) :
    Nat → RetryTrace α
  | 0 =>
    match op attempt with
    | .ok v => ⟨.ok v, 1, 0⟩
    | .error e => ⟨.error e, 1, 0⟩
  | r + 1 =>
    match op attempt with
    | .ok v => ⟨.ok v, 1, 0⟩
    | .error _ =>
      let t := retryAux op (attempt + 1) r
      ⟨t.result, t.calls + 1, t.sleeps + 1⟩

/-- `BaseAgent.retry_with_backoff(operation, max_retries, ...)`. -/
def retry_with_backoff (op : Nat → Except PyError α) (max_retries : Nat) :
    RetryTrace α :=
  retryAux op 0 max_retries

/-- The `transient_patterns` list of `BaseAgent.is_transient_error`. -/
def transient_patterns : List String :=
  ["timeout", "connection", "throttl", "rate limit", "service unavailable",
   "internal server error", "500", "502", "503", "504", "temporar"]

/-- The `transient_types` list of `BaseAgent.is_transient_error`. -/
def transient_types : List String :=
  ["TimeoutError", "ConnectionError", "BrokenPipeError", "IncompleteRead"]

/-- `BaseAgent.is_transient_error` (base_agent.py lines 445-489): lowercase
the message, return true if any fixed text pattern occurs in it, else true
if the exception type name is one of the fixed transient types, else
false. -/
def is_transient_error (e : PyError) : Bool :=
  let error_message := toLowerStr e.msg
  if transient_patterns.any (fun p => containsPat error_message p) then
    true
  else if transient_types.contains e.ty then
    true
  else
    false

/-- `BaseAgent.safe_invoke_claude` (base_agent.py lines 491-538): runs the
operation through `retry_with_backoff` (base_delay 2.0, max_delay 30.0 —
delay values do not affect call counts).  The `except` clause consults
`is_transient_error` only to choose a log line and re-raises either way, so
the observable trace is exactly that of `retry_with_backoff`. -/
def safe_invoke_claude (op : Nat → Except PyError String)
    (max_retries : Nat) : RetryTrace String :=
  retry_with_backoff op max_retries

/-- The five per-criterion `passed` booleans produced by
`ContentCheckerAgent.execute`'s `checks` dict, in the dict's key order
(content_checker_agent.py lines 66-72). -/
structure Checks where
  factual_accuracy : Bool
  seo_compliance : Bool
  research_alignment : Bool
  uniqueness : Bool
  quality : Bool
deriving DecidableEq

/-- `ContentCheckerAgent._calculate_quality_score` (content_checker_agent.py
lines 384-415): starting from `Decimal('0')`, add the fixed weight of each
check whose `passed` flag is true.  `Decimal` arithmetic on these values is
exact, so the score lives in `ℚ`. -/
def calculate_quality_score (c : Checks) : ℚ :=
  (0 : ℚ)
    + (if c.factual_accuracy then 25 / 100 else 0)
    + (if c.seo_compliance then 25 / 100 else 0)
    + (if c.research_alignment then 20 / 100 else 0)
    + (if c.uniqueness then 15 / 100 else 0)
    + (if c.quality then 15 / 100 else 0)

/-- Modelled from the spec, for comparison with `calculate_quality_score`:
"Weighted score = Σ weight for each passing criterion
(0.25/0.25/0.20/0.15/0.15)" — the sum of the weights of exactly the passing
criteria, as a declarative weight table. -/
def spec_weighted_score (c : Checks) : ℚ :=
  ((([((25 : ℚ) / 100, c.factual_accuracy),
      ((25 : ℚ) / 100, c.seo_compliance),
      ((20 : ℚ) / 100, c.research_alignment),
      ((15 : ℚ) / 100, c.uniqueness),
      ((15 : ℚ) / 100, c.quality)].filter Prod.snd).map Prod.fst)).sum

/-- `ContentCheckerAgent._make_decision` (content_checker_agent.py lines
417-502), reduced to its decision logic: `critical_checks` are the
factual-accuracy, research-alignment and uniqueness `passed` flags; if not
all hold the status is REJECTED; else if the SEO-compliance or quality flag
fails, NEEDS_REVISION; else APPROVED.  (The feedback strings do not affect
the status.) -/
def make_decision (c : Checks) : String :=
  if !(c.factual_accuracy && c.research_alignment && c.uniqueness) then
    "REJECTED"
  else if !c.seo_compliance || !c.quality then
    "NEEDS_REVISION"
  else
    "APPROVED"

/-- Result of `_check_factual_accuracy`, reduced to the fields the claims
inspect. -/
structure FactualCheckResult where
  passed : Bool
  verified_facts : Nat
  total_facts : Nat
  accuracy_rate : ℚ

/-- `ContentCheckerAgent._check_factual_accuracy` (content_checker_agent.py
lines 107-150), happy path: for each key fact, the first 3 words of the
lowercased fact are its keywords, and the fact counts as found when any
keyword occurs as a substring of the lowercased article text;
`accuracy_rate = facts_found / max(len(key_facts), 1)`; passes iff the rate
is at least 0.70. -/
def check_factual_accuracy (article_text : String) (key_facts : List String) :
    FactualCheckResult :=
  let artLower := toLowerStr article_text
  let facts_found :=
    (key_facts.filter (fun fact =>
      ((splitWords (toLowerStr fact)).take 3).any
        (fun kw => containsPat artLower kw))).length
  let accuracy_rate : ℚ := (facts_found : ℚ) / (max key_facts.length 1 : ℚ)
  { passed := decide (accuracy_rate ≥ 7 / 10)
    verified_facts := facts_found
    total_facts := key_facts.length
    accuracy_rate := accuracy_rate }

/-- Result of `_check_research_alignment`, reduced to the fields the claims
inspect. -/
structure AlignmentCheckResult where
  passed : Bool
  items_present : Nat
  items_total : Nat
  coverage : ℚ

/-- `ContentCheckerAgent._check_research_alignment` (content_checker_agent.py
lines 235-277), happy path: for each must-include item, the first 2 words of
the lowercased item are its keywords, the item counts as present when any
keyword occurs in the lowercased article text;
`coverage = items_found / max(len(must_include), 1)`; passes iff coverage is
at least 0.80. -/
def check_research_alignment (article_text : String)
    (must_include : List String) : AlignmentCheckResult :=
  let artLower := toLowerStr article_text
  let items_found :=
    (must_include.filter (fun item =>
      ((splitWords (toLowerStr item)).take 2).any
        (fun kw => containsPat artLower kw))).length
  let coverage : ℚ := (items_found : ℚ) / (max must_include.length 1 : ℚ)
  { passed := decide (coverage ≥ 8 / 10)
    items_present := items_found
    items_total := must_include.length
    coverage := coverage }

/-- The `WorkflowState` enum (manager_agent.py lines 18-36). -/
inductive WorkflowState
  | initialized
  | cleaning
  | discovering_topic
  | topic_selected
  | researching
  | research_complete
  | writing
  | draft_complete
  | checking
  | approved
  | needs_revision
  | rejected
  | email_sent
  | published
  | declined
  | failed
deriving DecidableEq

/-- The string `.value` of each `WorkflowState` member. -/
def WorkflowState.value : WorkflowState → String
  | .initialized => "initialized"
  | .cleaning => "cleaning"
  | .discovering_topic => "discovering_topic"
  | .topic_selected => "topic_selected"
  | .researching => "researching"
  | .research_complete => "research_complete"
  | .writing => "writing"
  | .draft_complete => "draft_complete"
  | .checking => "checking"
  | .approved => "approved"
  | .needs_revision => "needs_revision"
  | .rejected => "rejected"
  | .email_sent => "email_sent"
  | .published => "published"
  | .declined => "declined"
  | .failed => "failed"

/-- Modelled from the spec, for comparison with the orchestrator's final
statuses: §4.1 marks exactly REJECTED, PUBLISHED, DECLINED and FAILED as
terminal (*) states of the documented state-machine graph. -/
def specDocumentedTerminal : WorkflowState → Bool
  | .rejected | .published | .declined | .failed => true
  | _ => false

/-- One stage agent's observable outcome as seen by
`ManagerAgent._execute_workflow`: the agent returns a dict with
`status == "success"`, returns a dict with any other status (whereupon the
manager raises), or raises out of `execute`. -/
inductive StageOutcome
  | ok
  | errStatus
  | raises
deriving DecidableEq

/-- The content checker's `validation_result["status"]` on a successful
checker run. -/
inductive Verdict
  | approvedV
  | needsRevisionV
  | rejectedV
deriving DecidableEq

/-- One stage-outcome sequence driving `ManagerAgent._execute_workflow`:
outcomes of the four stage agents in pipeline order, the quality verdict
(consulted only when the checker run returns success), and whether the
approval email send succeeds (its failure is logged and the workflow
continues). -/
structure WorkflowEnv where
  topic : StageOutcome
  research : StageOutcome
  writer : StageOutcome
  checker : StageOutcome
  verdict : Verdict
  email_ok : Bool
deriving DecidableEq

/-- Observable trace of one `ManagerAgent._execute_workflow` run: every
workflow status persisted by `_update_workflow_status` in order, whether the
run finished by re-raising an escalated exception, how many approval-email
sends were attempted, the `status` field of the returned result dict (none
when the run raised), and whether the returned result dict carries the
`validation` payload (the QualityVerdict). -/
structure ExecTrace where
  statusUpdates : List WorkflowState
  raised : Bool
  emailAttempts : Nat
  resultStatus : Option WorkflowState
  validationAttached : Bool
deriving DecidableEq

/-- `ManagerAgent._execute_workflow` (manager_agent.py lines 107-294).
Statuses are persisted before each stage; a stage raising, or returning a
non-success status (which makes the manager raise), lands in the `except`
clause, which persists FAILED and re-raises.  A successful check with
verdict REJECTED persists REJECTED and returns without attempting the
approval email.  APPROVED or NEEDS_REVISION persists that state, attempts
the email, persists EMAIL_SENT whether or not the send succeeded, and
returns with status EMAIL_SENT.  (`_store_article_data` and metrics swallow
their own errors and do not affect the trace.) -/
def executeWorkflow (env : WorkflowEnv) : ExecTrace :=
  match env.topic with
  | .raises | .errStatus =>
    ⟨[.discovering_topic, .failed], true, 0, none, false⟩
  | .ok =>
    match env.research with
    | .raises | .errStatus =>
      ⟨[.discovering_topic, .topic_selected, .researching, .failed],
       true, 0, none, false⟩
    | .ok =>
      match env.writer with
      | .raises | .errStatus =>
        ⟨[.discovering_topic, .topic_selected, .researching,
          .research_complete, .writing, .failed], true, 0, none, false⟩
      | .ok =>
        match env.checker with
        | .raises | .errStatus =>
          ⟨[.discovering_topic, .topic_selected, .researching,
            .research_complete, .writing, .draft_complete, .checking,
            .failed], true, 0, none, false⟩
        | .ok =>
          match env.verdict with
          | .rejectedV =>
            ⟨[.discovering_topic, .topic_selected, .researching,
              .research_complete, .writing, .draft_complete, .checking,
              .rejected], false, 0, some .rejected, true⟩
          | .approvedV =>
            ⟨[.discovering_topic, .topic_selected, .researching,
              .research_complete, .writing, .draft_complete, .checking,
              .approved, .email_sent], false, 1, some .email_sent, true⟩
          | .needsRevisionV =>
            ⟨[.discovering_topic, .topic_selected, .researching,
              .research_complete, .writing, .draft_complete, .checking,
              .needs_revision, .email_sent], false, 1, some .email_sent, true⟩

/-- The workflow status left persisted when `_execute_workflow` finishes:
the last status update of the run (the record was created with status
`initialized` before any update). -/
def finalStatus (env : WorkflowEnv) : WorkflowState :=
  (executeWorkflow env).statusUpdates.getLastD .initialized

/-- A workflow record as the stale-workflow sweep sees it: its key, its
top-level `status` attribute, and its `created_at` timestamp.  The code
compares ISO-8601 UTC strings with DynamoDB's lexicographic `lt`, which on
such strings coincides with chronological order; `created_at` is therefore
modelled as seconds on an integer timeline. -/
structure WorkflowRec where
  workflow_id : String
  status : String
  created_at : Int
deriving DecidableEq

/-- The filter expression of
`TopicDiscoveryAgent._cleanup_stale_workflows` (topic_discovery_agent.py
lines 229-280): `status == 'awaiting_approval' AND created_at < cutoff`
where `cutoff = now - timedelta(hours=24)`. -/
def isStaleWorkflow (now : Int) (r : WorkflowRec) : Bool :=
  r.status == "awaiting_approval" && decide (r.created_at < now - 86400)

/-- `TopicDiscoveryAgent._cleanup_stale_workflows`, modelled over an
explicit store: every record matching the scan filter is deleted; the
result is the retained records paired with the deleted count. -/
def cleanup_stale_workflows (now : Int) (records : List WorkflowRec) :
    List WorkflowRec × Nat :=
  (records.filter (fun r => !isStaleWorkflow now r),
   (records.filter (fun r => isStaleWorkflow now r)).length)

/-- One entry of the static `TOPIC_BANK` (topic_discovery_agent.py lines
18-163). -/
structure Topic where
  title : String
  keywords : List String
  category : String
deriving DecidableEq

/-- The static topic bank (topic_discovery_agent.py lines 18-163). -/
def TOPIC_BANK : List Topic :=
  [⟨"Cycling Through Sri Lanka\x27s Cultural Triangle",
    ["sri lanka cultural triangle cycling", "anuradhapura polonnaruwa bike tour",
     "ancient cities cycling route", "sigiriya cycling experience"],
    "Cultural Routes"⟩,
   ⟨"Hill Country Cycling Adventure Through Ceylon\x27s Tea Estates",
    ["sri lanka hill country cycling", "nuwara eliya bike tour",
     "tea plantation cycling route", "ella to kandy cycling"],
    "Hill Country"⟩,
   ⟨"Coast to Coast: Sri Lanka\x27s Ultimate Cycling Journey",
    ["coast to coast cycling sri lanka", "cross country bike tour",
     "sri lanka cycling holiday", "galle to trincomalee cycling"],
    "Epic Routes"⟩,
   ⟨"Cycling Sri Lanka\x27s Southern Coast and Beaches",
    ["south coast cycling sri lanka", "galle mirissa bike route",
     "beach cycling holiday", "coastal cycling tour"],
    "Coastal Routes"⟩,
   ⟨"Knuckles Mountain Range: Sri Lanka\x27s Premier Cycling Challenge",
    ["knuckles mountain range cycling", "mountain biking sri lanka",
     "challenging cycling routes", "knuckles bike tour"],
    "Mountain Biking"⟩,
   ⟨"Wildlife Cycling Safari: Yala to Udawalawe Adventure",
    ["wildlife cycling sri lanka", "yala national park bike tour",
     "elephant cycling safari", "udawalawe cycling route"],
    "Wildlife"⟩,
   ⟨"Cycling Sri Lanka: Complete Planning Guide for First-Timers",
    ["cycling sri lanka guide", "plan bike tour sri lanka",
     "sri lanka cycling tips", "bike holiday planning"],
    "Planning"⟩,
   ⟨"When to Cycle Sri Lanka: Seasonal Guide and Weather Patterns",
    ["best time cycling sri lanka", "sri lanka cycling season",
     "monsoon cycling routes", "dry season bike tours"],
    "Planning"⟩,
   ⟨"Gravel Cycling Adventures in Rural Sri Lanka",
    ["gravel biking sri lanka", "gravel cycling routes",
     "rural cycling adventures", "off-road bike tours"],
    "Adventure"⟩,
   ⟨"Cycling Through Sri Lanka\x27s Spice Gardens and Plantations",
    ["spice garden cycling tour", "cinnamon plantation cycling",
     "agricultural cycling routes", "farm to table bike tour"],
    "Cultural Experience"⟩,
   ⟨"Family Cycling Holidays in Sri Lanka: Safe Routes and Activities",
    ["family cycling sri lanka", "kid friendly bike tours",
     "safe cycling routes families", "family bike holiday asia"],
    "Family Travel"⟩,
   ⟨"E-Bike Tours: Exploring Sri Lanka Without Breaking a Sweat",
    ["e-bike tours sri lanka", "electric bicycle touring",
     "assisted cycling holiday", "ebike rental sri lanka"],
    "E-Bike"⟩,
   ⟨"Cycling and Yoga Retreats: Wellness in Sri Lanka",
    ["cycling yoga retreat sri lanka", "wellness bike tour",
     "active meditation holiday", "mindful cycling vacation"],
    "Wellness"⟩,
   ⟨"Cycling Sri Lanka\x27s Coffee Triangle: From Bean to Cup",
    ["coffee cycling tour sri lanka", "coffee plantation bike route",
     "specialty coffee cycling", "haputale cycling experience"],
    "Culinary"⟩,
   ⟨"Multi-Day Cycling Expeditions Across Sri Lanka",
    ["multi day cycling tour sri lanka", "week long bike expedition",
     "cycling expedition asia", "supported bike tour sri lanka"],
    "Epic Routes"⟩,
   ⟨"Cycling Safety and Road Conditions in Sri Lanka",
    ["cycling safety sri lanka", "road conditions bike touring",
     "safe cycling tips asia", "sri lanka traffic cycling"],
    "Safety"⟩,
   ⟨"Solo Cycling in Sri Lanka: Independent Travel Guide",
    ["solo cycling sri lanka", "independent bike tour",
     "self guided cycling route", "solo traveler bike holiday"],
    "Solo Travel"⟩,
   ⟨"Cycling and Wildlife Photography Safari in Sri Lanka",
    ["cycling photography tour", "wildlife photography cycling",
     "photo safari bike tour", "photography cycling holiday"],
    "Photography"⟩,
   ⟨"Budget-Friendly Cycling Tours and Backroads of Sri Lanka",
    ["budget cycling sri lanka", "affordable bike tours",
     "backroads cycling routes", "cheap cycling holiday"],
    "Budget Travel"⟩,
   ⟨"Luxury Cycling Holidays: Five-Star Tours of Sri Lanka",
    ["luxury cycling sri lanka", "premium bike tours",
     "five star cycling holiday", "luxury bike tour asia"],
    "Luxury"⟩,
   ⟨"Cycling Through Sri Lanka\x27s Rice Paddies and Farming Villages",
    ["rice paddy cycling tour", "farming village bike route",
     "rural cycling sri lanka", "agricultural cycling"],
    "Rural Routes"⟩,
   ⟨"Cycling the Adam\x27s Peak Pilgrimage Route",
    ["adams peak cycling", "pilgrimage cycling route",
     "sri pada bike tour", "spiritual cycling journey"],
    "Cultural Routes"⟩,
   ⟨"Night Sky Cycling: Stargazing Tours in Rural Sri Lanka",
    ["night cycling sri lanka", "stargazing bike tour",
     "astronomy cycling experience", "dark sky cycling"],
    "Unique Experiences"⟩,
   ⟨"Cycling and Ayurveda: Holistic Wellness Tours",
    ["ayurveda cycling retreat", "holistic wellness bike tour",
     "traditional healing cycling", "ayurvedic cycling holiday"],
    "Wellness"⟩]

/-- The `published_titles` set of `_select_unique_topic`
(topic_discovery_agent.py lines 397-401): the lowercased `topic_title` of
every published article that has a non-empty one.  A published history is
modelled as the list of its records' `topic_title` values. -/
def publishedTitles (published_articles : List String) : List String :=
  (published_articles.filter (fun t => !t.isEmpty)).map toLowerStr

/-- The `available_topics` pool of `_select_unique_topic`
(topic_discovery_agent.py lines 404-411): bank entries whose lowercased
title is not among the published titles; when that pool is empty the code
falls back to the full `TOPIC_BANK` (explicit degraded mode allowing a
repeat). -/
def available_topics (published_articles : List String) : List Topic :=
  if (TOPIC_BANK.filter (fun t =>
      !(publishedTitles published_articles).contains (toLowerStr t.title))).isEmpty
  then TOPIC_BANK
  else TOPIC_BANK.filter (fun t =>
    !(publishedTitles published_articles).contains (toLowerStr t.title))

/-- The pool `random.choice` draws from in `_select_unique_topic`
(topic_discovery_agent.py lines 413-431): available topics whose category is
in `priority_categories` (gap ∪ underrepresented categories from the
analysis) when any exist, otherwise all available topics.  The random draw
itself is modelled nondeterministically as membership in this pool. -/
def selectionPool (published_articles priority_categories : List String) :
    List Topic :=
  if ((available_topics published_articles).filter (fun t =>
      priority_categories.contains t.category)).isEmpty
  then available_topics published_articles
  else (available_topics published_articles).filter (fun t =>
    priority_categories.contains t.category)

/-- The `uniqueness_score` of the selected topic (topic_discovery_agent.py
line 435): `Decimal('1.0')` when the selected title (lowercased) is not
among the published titles, else `Decimal('0.5')`. -/
def uniqueness_score (published_articles : List String) (selected : Topic) : ℚ :=
  if !(publishedTitles published_articles).contains (toLowerStr selected.title)
  then 1 else 1 / 2

/-- In every run of the retry loop the number of sleeps is one less than the
number of calls: no sleep ever follows the final attempt. -/
theorem retryAux_sleeps_calls (op : Nat → Except PyError α) :
    ∀ r a, (retryAux op a r).sleeps + 1 = (retryAux op a r).calls := by
  intro r
  induction r with
  | zero =>
    intro a
    cases h : op a <;> simp [retryAux, h]
  | succ n ih =>
    intro a
    cases h : op a <;> simp [retryAux, h, ih]

/-- When every attempt in range fails, the retry loop makes `r + 1` calls,
sleeps `r` times and re-raises the outcome of the last attempt. -/
theorem retryAux_all_fail (op : Nat → Except PyError α) :
    ∀ r a, (∀ i, a ≤ i → i ≤ a + r → ∃ e, op i = Except.error e) →
      retryAux op a r = ⟨op (a + r), r + 1, r⟩ := by
  intro r
  induction r with
  | zero =>
    intro a h
    obtain ⟨e, he⟩ := h a (le_refl a) (by omega)
    simp [retryAux, he]
  | succ n ih =>
    intro a h
    obtain ⟨e, he⟩ := h a (le_refl a) (by omega)
    have hrec := ih (a + 1) (fun i h1 h2 => h i (by omega) (by omega))
    have harith : a + 1 + n = a + (n + 1) := by omega
    simp [retryAux, he, hrec, harith]

/-- When attempt `j` (0-indexed) is the first to succeed and `j ≤ r`, the
retry loop makes exactly `j + 1` calls, sleeps `j` times and returns the
successful value. -/
theorem retryAux_first_success (op : Nat → Except PyError α) :
    ∀ j r a v, j ≤ r → op (a + j) = Except.ok v →
      (∀ i, i < j → ∃ e, op (a + i) = Except.error e) →
      retryAux op a r = ⟨Except.ok v, j + 1, j⟩ := by
  intro j
  induction j with
  | zero =>
    intro r a v _ hok _
    have hok0 : op a = Except.ok v := by simpa using hok
    cases r <;> simp [retryAux, hok0]
  | succ n ih =>
    intro r a v hle hok hf
    obtain ⟨r', rfl⟩ : ∃ r', r = r' + 1 := ⟨r - 1, by omega⟩
    obtain ⟨e, he⟩ := hf 0 (by omega)
    have he0 : op a = Except.error e := by simpa using he
    have hok1 : op (a + 1 + n) = Except.ok v := by
      have : a + 1 + n = a + (n + 1) := by omega
      rw [this]; exact hok
    have hf1 : ∀ i, i < n → ∃ e, op (a + 1 + i) = Except.error e := by
      intro i hi
      have : a + 1 + i = a + (i + 1) := by omega
      rw [this]; exact hf (i + 1) (by omega)
    have hrec := ih r' (a + 1) v (by omega) hok1 hf1
    simp [retryAux, he0, hrec]

/-- C4: `retry_with_backoff` with `max_retries = N` invokes the operation
exactly `N + 1` times when every invocation raises, then re-raises the last
exception; it invokes it exactly `j + 1` times when attempt `j` (0-indexed,
`j ≤ N`) is the first to succeed, returning that result; and in every run
the sleep count is one less than the call count, so no delay occurs after
the final attempt. -/
theorem C4_retry_executor_call_counts (op : Nat → Except PyError α) (N : Nat) :
    ((∀ i, i ≤ N → ∃ e, op i = Except.error e) →
      (retry_with_backoff op N).calls = N + 1 ∧
      (retry_with_backoff op N).result = op N ∧
      (retry_with_backoff op N).sleeps = N) ∧
    (∀ j v, j ≤ N → op j = Except.ok v →
      (∀ i, i < j → ∃ e, op i = Except.error e) →
      (retry_with_backoff op N).calls = j + 1 ∧
      (retry_with_backoff op N).result = Except.ok v ∧
      (retry_with_backoff op N).sleeps = j) ∧
    (retry_with_backoff op N).sleeps + 1 = (retry_with_backoff op N).calls := by
  refine ⟨?_, ?_, retryAux_sleeps_calls op N 0⟩
  · intro h
    have := retryAux_all_fail op N 0 (fun i h1 h2 => h i (by omega))
    rw [retry_with_backoff, this]
    simp
  · intro j v hj hok hf
    have := retryAux_first_success op j N 0 v hj (by simpa using hok)
      (fun i hi => by simpa using hf i hi)
    rw [retry_with_backoff, this]
    simp

theorem C4_retry_executor_call_counts_witness :
    (retry_with_backoff
      (fun i => if i < 2 then Except.error ⟨"TimeoutError", "Request timeout"⟩
                else (Except.ok "done" : Except PyError String)) 3).calls = 2 + 1 ∧
    (retry_with_backoff
      (fun i => if i < 2 then Except.error ⟨"TimeoutError", "Request timeout"⟩
                else (Except.ok "done" : Except PyError String)) 3).result =
      Except.ok "done" ∧
    (retry_with_backoff
      (fun i => if i < 2 then Except.error ⟨"TimeoutError", "Request timeout"⟩
                else (Except.ok "done" : Except PyError String)) 3).sleeps = 2 :=
  (C4_retry_executor_call_counts _ 3).2.1 2 "done" (by omega) (by rfl)
    (fun i hi => ⟨⟨"TimeoutError", "Request timeout"⟩, by
      interval_cases i <;> rfl⟩)

/-- C5 (code bug): `safe_invoke_claude` does not fail fast on non-transient
errors.  An operation that raises a plain `ValueError` on every call — which
`is_transient_error` classifies as non-transient — is still invoked
`max_retries + 1 = 4` times before the exception escalates, because the
transience check happens only after `retry_with_backoff` has already
retried, merely to choose a log line. -/
theorem C5_safe_invoke_retries_nontransient :
    is_transient_error ⟨"ValueError", "Missing required fields: title"⟩ = false ∧
    (safe_invoke_claude
      (fun _ => Except.error ⟨"ValueError", "Missing required fields: title"⟩)
      3).calls = 4 ∧
    (safe_invoke_claude
      (fun _ => Except.error ⟨"ValueError", "Missing required fields: title"⟩)
      3).result = Except.error ⟨"ValueError", "Missing required fields: title"⟩ := by
  refine ⟨by decide, by decide, by rfl⟩

/-- C6: the transient classifier returns true for any `ConnectionError` and
any `TimeoutError` (fixed transient type names), and for any exception whose
message contains "503"; it returns false for a `ValueError` and for a
`KeyError` whose messages contain none of the transient text patterns. -/
theorem C6_transient_classifier :
    (∀ msg, is_transient_error ⟨"ConnectionError", msg⟩ = true) ∧
    (∀ msg, is_transient_error ⟨"TimeoutError", msg⟩ = true) ∧
    (∀ ty msg, containsPat (toLowerStr msg) "503" = true →
      is_transient_error ⟨ty, msg⟩ = true) ∧
    (∀ msg, (∀ p ∈ transient_patterns, containsPat (toLowerStr msg) p = false) →
      is_transient_error ⟨"ValueError", msg⟩ = false) ∧
    (∀ msg, (∀ p ∈ transient_patterns, containsPat (toLowerStr msg) p = false) →
      is_transient_error ⟨"KeyError", msg⟩ = false) := by
  refine ⟨?_, ?_, ?_, ?_, ?_⟩
  · intro msg
    unfold is_transient_error
    cases h : transient_patterns.any (fun p => containsPat (toLowerStr msg) p)
    · simp [h]
      decide
    · simp [h]
  · intro msg
    unfold is_transient_error
    cases h : transient_patterns.any (fun p => containsPat (toLowerStr msg) p)
    · simp [h]
      decide
    · simp [h]
  · intro ty msg h503
    unfold is_transient_error
    have hany : transient_patterns.any (fun p => containsPat (toLowerStr msg) p) = true :=
      List.any_eq_true.mpr ⟨"503", by decide, h503⟩
    simp [hany]
  · intro msg hnone
    unfold is_transient_error
    have hany : transient_patterns.any (fun p => containsPat (toLowerStr msg) p) = false := by
      rw [List.any_eq_false]
      intro p hp
      simp [hnone p hp]
    simp [hany]
    decide
  · intro msg hnone
    unfold is_transient_error
    have hany : transient_patterns.any (fun p => containsPat (toLowerStr msg) p) = false := by
      rw [List.any_eq_false]
      intro p hp
      simp [hnone p hp]
    simp [hany]
    decide

theorem C6_transient_classifier_witness :
    is_transient_error ⟨"ConnectionError", "Connection refused"⟩ = true ∧
    is_transient_error ⟨"TimeoutError", "Read timed out"⟩ = true ∧
    is_transient_error ⟨"Exception", "503 Service Unavailable"⟩ = true ∧
    is_transient_error ⟨"ValueError", "Invalid input"⟩ = false ∧
    is_transient_error ⟨"KeyError", "article"⟩ = false :=
  ⟨C6_transient_classifier.1 "Connection refused",
   C6_transient_classifier.2.1 "Read timed out",
   C6_transient_classifier.2.2.1 "Exception" "503 Service Unavailable" (by decide),
   C6_transient_classifier.2.2.2.1 "Invalid input" (by decide),
   C6_transient_classifier.2.2.2.2 "article" (by decide)⟩

theorem C1_counterexample_success_path :
    finalStatus ⟨.ok, .ok, .ok, .ok, .approvedV, true⟩ = .email_sent ∧
    specDocumentedTerminal .email_sent = false ∧
    (executeWorkflow ⟨.ok, .ok, .ok, .ok, .approvedV, true⟩).raised = false := by
  decide

/-- C1 (amended): for every stage-outcome sequence, the status persisted
when `_execute_workflow` finishes is `failed`, `rejected` or `email_sent` —
never an intermediate stage state; every run that finishes by escalated
error ends in `failed`; and every final status other than the
awaiting-approval handoff `email_sent` is a documented terminal state of the
spec's state-machine graph.  (The claim as stated fails only on the fully
successful path, which ends at `email_sent`, a state the graph does not mark
terminal — see the counterexample.) -/
theorem C1_final_status_classification (env : WorkflowEnv) :
    (finalStatus env = .failed ∨ finalStatus env = .rejected ∨
      finalStatus env = .email_sent) ∧
    ((executeWorkflow env).raised = true → finalStatus env = .failed) ∧
    (finalStatus env ≠ .email_sent →
      specDocumentedTerminal (finalStatus env) = true) := by
  obtain ⟨t, r, w, c, v, e⟩ := env
  cases t <;> cases r <;> cases w <;> cases c <;> cases v <;> cases e <;> decide

theorem C1_final_status_classification_witness :
    finalStatus ⟨.raises, .ok, .ok, .ok, .approvedV, true⟩ = .failed ∧
    specDocumentedTerminal
      (finalStatus ⟨.ok, .ok, .ok, .ok, .rejectedV, true⟩) = true :=
  ⟨(C1_final_status_classification ⟨.raises, .ok, .ok, .ok, .approvedV, true⟩).2.1
      (by decide),
   (C1_final_status_classification ⟨.ok, .ok, .ok, .ok, .rejectedV, true⟩).2.2
      (by decide)⟩

/-- C9: when the quality verdict is REJECTED (all four stage agents having
run successfully), the orchestrator short-circuits: no approval email is
attempted, the persisted final status is the distinct `rejected` state (not
`failed`), and the returned result carries status `rejected` with the
validation payload attached. -/
theorem C9_rejected_short_circuit (env : WorkflowEnv)
    (ht : env.topic = .ok) (hr : env.research = .ok) (hw : env.writer = .ok)
    (hc : env.checker = .ok) (hv : env.verdict = .rejectedV) :
    (executeWorkflow env).emailAttempts = 0 ∧
    finalStatus env = .rejected ∧
    finalStatus env ≠ .failed ∧
    (executeWorkflow env).resultStatus = some .rejected ∧
    (executeWorkflow env).validationAttached = true := by
  obtain ⟨t, r, w, c, v, e⟩ := env
  dsimp only at ht hr hw hc hv
  subst ht; subst hr; subst hw; subst hc; subst hv
  cases e <;> decide

theorem C9_rejected_short_circuit_witness :
    (executeWorkflow ⟨.ok, .ok, .ok, .ok, .rejectedV, true⟩).emailAttempts = 0 ∧
    finalStatus ⟨.ok, .ok, .ok, .ok, .rejectedV, true⟩ = .rejected ∧
    finalStatus ⟨.ok, .ok, .ok, .ok, .rejectedV, true⟩ ≠ .failed ∧
    (executeWorkflow ⟨.ok, .ok, .ok, .ok, .rejectedV, true⟩).resultStatus =
      some .rejected ∧
    (executeWorkflow ⟨.ok, .ok, .ok, .ok, .rejectedV, true⟩).validationAttached =
      true :=
  C9_rejected_short_circuit ⟨.ok, .ok, .ok, .ok, .rejectedV, true⟩
    rfl rfl rfl rfl rfl

/-- C2: the weighted quality score is the sum of the fixed weights of
exactly the passing criteria, with weights 0.25 (factual), 0.25
(structural/SEO), 0.20 (requirement/alignment), 0.15 (novelty/uniqueness)
and 0.15 (readability/quality); in particular all five passing gives 1.0 and
only the factual criterion failing gives 0.75. -/
theorem C2_weighted_score (c : Checks) :
    calculate_quality_score c = spec_weighted_score c ∧
    calculate_quality_score ⟨true, true, true, true, true⟩ = 1 ∧
    calculate_quality_score ⟨false, true, true, true, true⟩ = 75 / 100 := by
  refine ⟨?_, by norm_num [calculate_quality_score],
    by norm_num [calculate_quality_score]⟩
  obtain ⟨f, s, a, u, q⟩ := c
  cases f <;> cases s <;> cases a <;> cases u <;> cases q <;>
    norm_num [calculate_quality_score, spec_weighted_score]

/-- C3: for every combination of the five check outcomes, the decision is
REJECTED iff any of the factual, requirement-coverage or novelty checks
fails; NEEDS_REVISION iff all three critical checks pass but the
structural/SEO or readability/quality check fails; APPROVED iff all five
pass. -/
theorem C3_gate_decision (c : Checks) :
    (make_decision c = "REJECTED" ↔
      (c.factual_accuracy = false ∨ c.research_alignment = false ∨
        c.uniqueness = false)) ∧
    (make_decision c = "NEEDS_REVISION" ↔
      (c.factual_accuracy = true ∧ c.research_alignment = true ∧
        c.uniqueness = true ∧
        (c.seo_compliance = false ∨ c.quality = false))) ∧
    (make_decision c = "APPROVED" ↔
      (c.factual_accuracy = true ∧ c.seo_compliance = true ∧
        c.research_alignment = true ∧ c.uniqueness = true ∧
        c.quality = true)) := by
  obtain ⟨f, s, a, u, q⟩ := c
  cases f <;> cases s <;> cases a <;> cases u <;> cases q <;> decide

theorem C3_gate_decision_witness :
    make_decision ⟨true, true, true, false, true⟩ = "REJECTED" ∧
    make_decision ⟨true, false, true, true, true⟩ = "NEEDS_REVISION" ∧
    make_decision ⟨true, true, true, true, true⟩ = "APPROVED" :=
  ⟨(C3_gate_decision ⟨true, true, true, false, true⟩).1.mpr
      (Or.inr (Or.inr rfl)),
   (C3_gate_decision ⟨true, false, true, true, true⟩).2.1.mpr
      ⟨rfl, rfl, rfl, Or.inl rfl⟩,
   (C3_gate_decision ⟨true, true, true, true, true⟩).2.2.mpr
      ⟨rfl, rfl, rfl, rfl, rfl⟩⟩

/-- C7: for every published history and every priority-category set, every
topic the selector can draw (any member of the pool `random.choice` is
applied to) has a title that does not case-insensitively match a published
title, unless every title in the candidate bank is already published — in
which case the pool falls back to the full bank, allowing a repeat; and the
uniqueness score of a selected topic is 1.0 exactly when its lowercased
title is not among the published titles, 0.5 when it is a forced repeat. -/
theorem C7_topic_selector (published priority_categories : List String) :
    (∀ t, t ∈ selectionPool published priority_categories →
      ¬(∀ b ∈ TOPIC_BANK,
          (publishedTitles published).contains (toLowerStr b.title) = true) →
      (publishedTitles published).contains (toLowerStr t.title) = false) ∧
    ((∀ b ∈ TOPIC_BANK,
        (publishedTitles published).contains (toLowerStr b.title) = true) →
      available_topics published = TOPIC_BANK) ∧
    (∀ t, ((publishedTitles published).contains (toLowerStr t.title) = false →
        uniqueness_score published t = 1) ∧
      ((publishedTitles published).contains (toLowerStr t.title) = true →
        uniqueness_score published t = 1 / 2)) := by
  refine ⟨?_, ?_, ?_⟩
  · intro t ht hnot
    have hne : TOPIC_BANK.filter (fun b =>
        !(publishedTitles published).contains (toLowerStr b.title)) ≠ [] := by
      intro hnil
      apply hnot
      intro b hb
      by_contra hcb
      have hcb' : (publishedTitles published).contains (toLowerStr b.title)
          = false := by
        cases h2 : (publishedTitles published).contains (toLowerStr b.title) with
        | false => rfl
        | true => exact absurd h2 hcb
      have hmem : b ∈ TOPIC_BANK.filter (fun b =>
          !(publishedTitles published).contains (toLowerStr b.title)) := by
        rw [List.mem_filter]
        refine ⟨hb, ?_⟩
        show (!(publishedTitles published).contains (toLowerStr b.title)) = true
        rw [hcb']
        rfl
      rw [hnil] at hmem
      exact absurd hmem (List.not_mem_nil b)
    have hempty : (TOPIC_BANK.filter (fun b =>
        !(publishedTitles published).contains (toLowerStr b.title))).isEmpty
          = false := by
      cases hfl : TOPIC_BANK.filter (fun b =>
          !(publishedTitles published).contains (toLowerStr b.title)) with
      | nil => exact absurd hfl hne
      | cons x xs => rfl
    have hcond : ¬((TOPIC_BANK.filter (fun b =>
        !(publishedTitles published).contains (toLowerStr b.title))).isEmpty
          = true) := by
      rw [hempty]
      exact Bool.false_ne_true
    have havail : available_topics published = TOPIC_BANK.filter (fun b =>
        !(publishedTitles published).contains (toLowerStr b.title)) := by
      rw [available_topics, if_neg hcond]
    have htav : t ∈ available_topics published := by
      rw [selectionPool] at ht
      split at ht
      · exact ht
      · exact (List.mem_filter.mp ht).1
    rw [havail] at htav
    have hprop : (!(publishedTitles published).contains (toLowerStr t.title))
        = true := (List.mem_filter.mp htav).2
    cases h2 : (publishedTitles published).contains (toLowerStr t.title) with
    | false => rfl
    | true => rw [h2] at hprop; exact absurd hprop (by decide)
  · intro hall
    have hnil : TOPIC_BANK.filter (fun b =>
        !(publishedTitles published).contains (toLowerStr b.title)) = [] := by
      rw [List.filter_eq_nil_iff]
      intro b hb hcon
      have hcon' : (!(publishedTitles published).contains (toLowerStr b.title))
          = true := hcon
      rw [hall b hb] at hcon'
      exact absurd hcon' (by decide)
    rw [available_topics, hnil]
    rfl
  · intro t
    constructor
    · intro hc
      have h : (!(publishedTitles published).contains (toLowerStr t.title))
          = true := by
        rw [hc]
        rfl
      rw [uniqueness_score, if_pos h]
    · intro hc
      have h : ¬((!(publishedTitles published).contains (toLowerStr t.title))
          = true) := by
        rw [hc]
        decide
      rw [uniqueness_score, if_neg h]

theorem C7_topic_selector_witness :
    (publishedTitles []).contains
      (toLowerStr "Cycling and Ayurveda: Holistic Wellness Tours") = false ∧
    uniqueness_score []
      ⟨"Cycling and Ayurveda: Holistic Wellness Tours",
       ["ayurveda cycling retreat", "holistic wellness bike tour",
        "traditional healing cycling", "ayurvedic cycling holiday"],
       "Wellness"⟩ = 1 :=
  ⟨(C7_topic_selector [] []).1
      ⟨"Cycling and Ayurveda: Holistic Wellness Tours",
       ["ayurveda cycling retreat", "holistic wellness bike tour",
        "traditional healing cycling", "ayurvedic cycling holiday"],
       "Wellness"⟩ (by decide) (by decide),
   ((C7_topic_selector [] []).2.2
      ⟨"Cycling and Ayurveda: Holistic Wellness Tours",
       ["ayurveda cycling retreat", "holistic wellness bike tour",
        "traditional healing cycling", "ayurvedic cycling holiday"],
       "Wellness"⟩).1 (by decide)⟩

/-- C8: the stale-workflow sweep retains a record iff it does not match the
scan filter, i.e. it deletes exactly the records whose status is
"awaiting_approval" and whose `created_at` is strictly older than 24 hours
(86400 s) before the sweep time; an awaiting-approval record created on or
after the cutoff, and every record with any other status regardless of age,
survives. -/
theorem C8_stale_sweep (now : Int) (records : List WorkflowRec)
    (r : WorkflowRec) :
    r ∈ (cleanup_stale_workflows now records).1 ↔
      r ∈ records ∧
        ¬(r.status = "awaiting_approval" ∧ r.created_at < now - 86400) := by
  simp [cleanup_stale_workflows, List.mem_filter, isStaleWorkflow]
  tauto

theorem C8_stale_sweep_witness :
    (⟨"w2", "awaiting_approval", 113601⟩ : WorkflowRec) ∈
      (cleanup_stale_workflows 200000
        [⟨"w1", "awaiting_approval", 100000⟩,
         ⟨"w2", "awaiting_approval", 113601⟩,
         ⟨"w3", "published", 100⟩]).1 ∧
    (⟨"w3", "published", 100⟩ : WorkflowRec) ∈
      (cleanup_stale_workflows 200000
        [⟨"w1", "awaiting_approval", 100000⟩,
         ⟨"w2", "awaiting_approval", 113601⟩,
         ⟨"w3", "published", 100⟩]).1 ∧
    (⟨"w1", "awaiting_approval", 100000⟩ : WorkflowRec) ∉
      (cleanup_stale_workflows 200000
        [⟨"w1", "awaiting_approval", 100000⟩,
         ⟨"w2", "awaiting_approval", 113601⟩,
         ⟨"w3", "published", 100⟩]).1 :=
  ⟨(C8_stale_sweep 200000 _ _).mpr ⟨by decide, by decide⟩,
   (C8_stale_sweep 200000 _ _).mpr ⟨by decide, by decide⟩,
   fun h => ((C8_stale_sweep 200000 _ _).mp h).2 ⟨rfl, by decide⟩⟩

/-- C10: an empty requirements list does not vacuously pass: for every
article text, an empty key-facts list yields factual coverage 0 and a
failing factual check, an empty must-include list yields requirement
coverage 0 and a failing alignment check, and the resulting decision is
REJECTED regardless of every other check's outcome. -/
theorem C10_empty_requirements_reject (article_text : String) (s u q : Bool) :
    (check_factual_accuracy article_text []).accuracy_rate = 0 ∧
    (check_factual_accuracy article_text []).passed = false ∧
    (check_research_alignment article_text []).coverage = 0 ∧
    (check_research_alignment article_text []).passed = false ∧
    make_decision ⟨(check_factual_accuracy article_text []).passed, s,
      (check_research_alignment article_text []).passed, u, q⟩ = "REJECTED" := by
  have h2 : (check_factual_accuracy article_text []).passed = false := by
    norm_num [check_factual_accuracy]
  have h4 : (check_research_alignment article_text []).passed = false := by
    norm_num [check_research_alignment]
  refine ⟨by simp [check_factual_accuracy], h2,
    by simp [check_research_alignment], h4, ?_⟩
  rw [h2, h4]
  simp [make_decision]

end Autoblogger
